import Mathlib

/-!
Shallow embedding of the rinha tree-walking interpreter
(src/main.rs, src/error.rs): AST, runtime values, the shared mutable
scope chain (modelled as an explicit store of frames), the diagnostic
type and the evaluator, together with theorems settling the spec claims.
-/

namespace Rinha

/-- Source byte range; the source struct `Location` has fields
`start` and `end` (`end` is a Lean keyword, rendered `stop`). -/
structure Location where
  start : Nat
  stop : Nat
deriving DecidableEq

/-- A span-carrying binder/parameter token (`Parameter` in main.rs). -/
structure Parameter where
  text : String
  location : Location
deriving DecidableEq

/-- A variable-reference token (`Var` in main.rs). -/
structure Var where
  text : String
  location : Location
deriving DecidableEq

/-- Binary operator tags (`BinaryOp` in main.rs). -/
inductive BinaryOp where
  | add | sub | mul | div | rem
  | eq | neq | lt | gt | lte | gte
  | and | or
deriving DecidableEq

/-- AST nodes (`Term` in main.rs); each variant's payload struct is
flattened into constructor fields. `if`/`let` are Lean keywords, so
those constructors are `ifE`/`letE`. Integer literals carry an `i32`
payload, embedded as a mathematical integer kept in i32 range. -/
inductive Term where
  | int (value : Int) (location : Location)
  | str (value : String) (location : Location)
  | bool (value : Bool) (location : Location)
  | print (value : Term) (location : Location)
  | binary (op : BinaryOp) (lhs : Term) (rhs : Term) (location : Location)
  | ifE (condition : Term) (thenB : Term) (otherwise : Term) (location : Location)
  | letE (name : Parameter) (value : Term) (next : Term) (location : Location)
  | var (v : Var)
  | function (parameters : List Parameter) (value : Term) (location : Location)
  | call (callee : Term) (arguments : List Term) (location : Location)
  | tuple (first : Term) (second : Term) (location : Location)
  | first (value : Term) (location : Location)
  | second (value : Term) (location : Location)

/-- The function-literal struct (`Function` in main.rs), as captured in
closure values. -/
structure Function where
  parameters : List Parameter
  value : Term
  location : Location

/-- Model of `Term::location` in main.rs. -/
def Term.location : Term → Location
  | .int _ l => l
  | .str _ l => l
  | .bool _ l => l
  | .print _ l => l
  | .binary _ _ _ l => l
  | .ifE _ _ _ l => l
  | .letE _ _ _ l => l
  | .var v => v.location
  | .function _ _ l => l
  | .call _ _ l => l
  | .tuple _ _ l => l
  | .first _ l => l
  | .second _ l => l

/-- A `Scope` names its current frame's backing cell plus the chain of
parent frames' cells, innermost first. In the source the current frame
is an `Rc<RefCell<HashMap<String, Val>>>`; here a cell is an index into
an explicit store, so that the sharing of mutable frames is explicit. -/
structure Scope where
  current : Nat
  parents : List Nat
deriving DecidableEq

/-- Runtime values (`Val` in main.rs). -/
inductive Val where
  | int (i : Int)
  | bool (b : Bool)
  | str (s : String)
  | tuple (fst : Val) (snd : Val)
  | closure (fn : Function) (env : Scope)

/-- One binding frame: the contents of one `HashMap<String, Val>` cell,
as an association list where the head entry shadows later ones (so
insertion is cons, lookup returns the first hit). -/
abbrev Frame := List (String × Val)

/-- The heap of frame cells; a `Scope` refers to cells by index. -/
structure Store where
  cells : List Frame

/-- Read a frame cell (total: absent cells read as empty). -/
def Store.read (st : Store) (c : Nat) : Frame :=
  st.cells.getD c []

/-- Overwrite a frame cell. -/
def Store.write (st : Store) (c : Nat) (f : Frame) : Store :=
  ⟨st.cells.set c f⟩

/-- Allocate a fresh empty frame cell (a new `Rc<RefCell<HashMap>>`). -/
def Store.alloc (st : Store) : Nat × Store :=
  (st.cells.length, ⟨st.cells ++ [[]]⟩)

/-- Model of `HashMap::get`: first binding for the key in a frame. -/
def Frame.find : Frame → String → Option Val
  | [], _ => none
  | (k, v) :: rest, key => if k = key then some v else Frame.find rest key

/-- Model of `impl Clone for Scope` in main.rs: the clone's parent is a new node
holding the original's current cell and parent chain, and the clone's
current frame is a fresh empty cell. -/
def Scope.clone (s : Scope) (st : Store) : Scope × Store :=
  let (c, st') := st.alloc
  (⟨c, s.current :: s.parents⟩, st')

/-- Model of the derived `Clone for Val`: structural, except that cloning a
closure clones its captured `Scope`, which allocates a fresh current
frame (see `Scope.clone`). -/
def Val.clone : Val → Store → Val × Store
  | .int i, st => (.int i, st)
  | .bool b, st => (.bool b, st)
  | .str s, st => (.str s, st)
  | .tuple f s, st =>
    let (f', st1) := f.clone st
    let (s', st2) := s.clone st1
    (.tuple f' s', st2)
  | .closure fn env, st =>
    let (env', st') := env.clone st
    (.closure fn env', st')

/-- The lookup walk of `Scope::get`: try each cell of the chain in
order; the found value is returned `.cloned()`, which may allocate. -/
def Scope.getFrom (st : Store) : List Nat → String → Option Val × Store
  | [], _ => (none, st)
  | c :: rest, key =>
    match Frame.find (st.read c) key with
    | some v => let (v', st') := v.clone st; (some v', st')
    | none => Scope.getFrom st rest key

/-- Model of `Scope::get` in main.rs: current frame first, then the parents. -/
def Scope.get (s : Scope) (key : String) (st : Store) : Option Val × Store :=
  Scope.getFrom st (s.current :: s.parents) key

/-- Model of `Scope::set` in main.rs: insert/overwrite in the current frame
only. -/
def Scope.set (s : Scope) (key : String) (v : Val) (st : Store) : Store :=
  st.write s.current ((key, v) :: st.read s.current)

/-- Model of `Display for Val` in main.rs. -/
def Val.display : Val → String
  | .int i => toString i
  | .bool true => "true"
  | .bool false => "false"
  | .str s => s
  | .tuple f s => "(" ++ f.display ++ ", " ++ s.display ++ ")"
  | .closure _ _ => "<#closure>"

/-- Diagnostic kinds (`ErrorKind` in src/error.rs). -/
inductive ErrorKind where
  | argumentError
  | divisionByZero
  | unknowIdentifier (var : Var)
  | invalidBinaryOperation
  | invalidNumberOfArguments (fn : Function) (loc : Location)

/-- Model of `RuntimeError` in src/error.rs. -/
structure RuntimeError where
  message : String
  location : Location
  kind : ErrorKind

/-- Model of `RuntimeError::new`. -/
def RuntimeError.new (message : String) (location : Location) : RuntimeError :=
  ⟨message, location, .argumentError⟩

/-- Model of `RuntimeError::unknow_identifier`. -/
def RuntimeError.unknow_identifier (v : Var) : RuntimeError :=
  ⟨"identificador não encontrado", v.location, .unknowIdentifier v⟩

/-- Model of `RuntimeError::division_by_zero`. -/
def RuntimeError.division_by_zero (loc : Location) : RuntimeError :=
  ⟨"divisão por zero", loc, .divisionByZero⟩

/-- Model of `RuntimeError::invalid_binary_operation`. -/
def RuntimeError.invalid_binary_operation (loc : Location) : RuntimeError :=
  ⟨"operação inválida", loc, .invalidBinaryOperation⟩

/-- Model of `RuntimeError::invalid_number_of_arguments`. -/
def RuntimeError.invalid_number_of_arguments (fn : Function) (loc : Location) : RuntimeError :=
  ⟨"número de argumentos inválidos", loc, .invalidNumberOfArguments fn loc⟩

/-- A labeled span as produced by the `Diagnostic::labels`
implementation in src/error.rs. -/
structure LabeledSpan where
  start : Nat
  stop : Nat
  label : String
deriving DecidableEq

/-- Model of the `Diagnostic::labels` implementation in src/error.rs. -/
def RuntimeError.labels (e : RuntimeError) : List LabeledSpan :=
  match e.kind with
  | .argumentError => [⟨e.location.start, e.location.stop, e.message⟩]
  | .invalidBinaryOperation => [⟨e.location.start, e.location.stop, e.message⟩]
  | .divisionByZero => [⟨e.location.start, e.location.stop, e.message⟩]
  | .unknowIdentifier v => [⟨v.location.start, v.location.stop, e.message⟩]
  | .invalidNumberOfArguments fn loc =>
    [⟨loc.start, loc.stop, "parâmetros informados"⟩,
     match fn.parameters with
     | [] => ⟨fn.location.start, fn.location.start + 2, "argumentos esperados"⟩
     | p :: rest => ⟨p.location.start, ((rest.getLastD p).location).stop, "argumentos esperados"⟩]

/-! ### i32 arithmetic

`Val::Int` holds an `i32`. Released Rust code wraps `+`, `-`, `*`
(two's complement); `/` and `%` panic when the divisor is zero or on
the overflowing pair `(i32::MIN, -1)` in every build profile. -/

def i32min : Int := -2147483648

/-- Reduce an integer into i32 range, two's-complement style. -/
def i32wrap (x : Int) : Int :=
  (x + 2147483648) % 4294967296 - 2147483648

def i32add (a b : Int) : Int := i32wrap (a + b)

def i32sub (a b : Int) : Int := i32wrap (a - b)

def i32mul (a b : Int) : Int := i32wrap (a * b)

/-- Rust `i32::/`: truncated quotient; `none` models the host panic
(zero divisor or `i32::MIN / -1`). -/
def i32div (a b : Int) : Option Int :=
  if b = 0 ∨ (a = i32min ∧ b = -1) then none else some (a.tdiv b)

/-- Rust `i32::%`: truncated remainder (sign of the dividend); `none`
models the host panic (zero divisor or `i32::MIN % -1`). -/
def i32rem (a b : Int) : Option Int :=
  if b = 0 ∨ (a = i32min ∧ b = -1) then none else some (a.tmod b)

/-- The result of one evaluation: a value, a propagating
`RuntimeError`, a host arithmetic panic (not a `RuntimeError`), or
fuel exhaustion (an artifact of the embedding, not a program
behavior). -/
inductive Outcome where
  | ok (v : Val)
  | err (e : RuntimeError)
  | hostPanic
  | timeout

/-- The mutable world threaded through evaluation: the frame store and
the text written to standard output so far. -/
structure St where
  store : Store
  output : String

/-- Rust's `?` on `eval(..)?`: continue on `Ok`, propagate anything
else. -/
def andThen (r : Outcome × St) (f : Val → St → Outcome × St) : Outcome × St :=
  match r with
  | (.ok v, st) => f v st
  | (o, st) => (o, st)

/-- The operator dispatch of the `Term::Binary` arm of `eval`, applied
after both operands have been evaluated. -/
def applyBinOp (op : BinaryOp) (l r : Val) (loc : Location) : Outcome :=
  match op with
  | .add =>
    match l, r with
    | .int a, .int b => .ok (.int (i32add a b))
    | a, b => .ok (.str (a.display ++ b.display))
  | .sub =>
    match l, r with
    | .int a, .int b => .ok (.int (i32sub a b))
    | _, _ => .err (RuntimeError.invalid_binary_operation loc)
  | .mul =>
    match l, r with
    | .int a, .int b => .ok (.int (i32mul a b))
    | _, _ => .err (RuntimeError.invalid_binary_operation loc)
  | .div =>
    match l, r with
    | .int a, .int b =>
      if b = 0 then .err (RuntimeError.division_by_zero loc)
      else
        match i32div a b with
        | some q => .ok (.int q)
        | none => .hostPanic
    | _, _ => .err (RuntimeError.invalid_binary_operation loc)
  | .rem =>
    match l, r with
    | .int a, .int b =>
      match i32rem a b with
      | some q => .ok (.int q)
      | none => .hostPanic
    | _, _ => .err (RuntimeError.invalid_binary_operation loc)
  | .and =>
    match l, r with
    | .bool a, .bool b => .ok (.bool (a && b))
    | _, _ => .err (RuntimeError.invalid_binary_operation loc)
  | .or =>
    match l, r with
    | .bool a, .bool b => .ok (.bool (a || b))
    | _, _ => .err (RuntimeError.invalid_binary_operation loc)
  | .lt =>
    match l, r with
    | .int a, .int b => .ok (.bool (decide (a < b)))
    | _, _ => .err (RuntimeError.invalid_binary_operation loc)
  | .lte =>
    match l, r with
    | .int a, .int b => .ok (.bool (decide (a ≤ b)))
    | _, _ => .err (RuntimeError.invalid_binary_operation loc)
  | .gt =>
    match l, r with
    | .int a, .int b => .ok (.bool (decide (b < a)))
    | _, _ => .err (RuntimeError.invalid_binary_operation loc)
  | .gte =>
    match l, r with
    | .int a, .int b => .ok (.bool (decide (b ≤ a)))
    | _, _ => .err (RuntimeError.invalid_binary_operation loc)
  | .eq =>
    match l, r with
    | .int a, .int b => .ok (.bool (decide (a = b)))
    | .bool a, .bool b => .ok (.bool (decide (a = b)))
    | .str a, .str b => .ok (.bool (decide (a = b)))
    | _, _ => .err (RuntimeError.invalid_binary_operation loc)
  | .neq =>
    match l, r with
    | .int a, .int b => .ok (.bool (decide (a ≠ b)))
    | .bool a, .bool b => .ok (.bool (decide (a ≠ b)))
    | .str a, .str b => .ok (.bool (decide (a ≠ b)))
    | _, _ => .err (RuntimeError.invalid_binary_operation loc)

/-- The argument-binding loop of the `Term::Call` arm: for each
parameter/argument pair, evaluate the argument (in the caller's scope,
via `evalF`) and bind it into the closure's captured environment's
current frame; the first failing argument aborts the loop. -/
def bindLoop (evalF : Term → St → Outcome × St) (env : Scope) :
    List (Parameter × Term) → St → Option Outcome × St
  | [], st => (none, st)
  | (p, a) :: rest, st =>
    match evalF a st with
    | (.ok v, st1) => bindLoop evalF env rest { st1 with store := env.set p.text v st1.store }
    | (o, st1) => (some o, st1)

/-- Model of `eval` of main.rs, with a fuel parameter to make the recursion
through stored closure bodies structural. Every recursive occurrence
in the source runs at fuel one less. -/
def eval : Nat → Term → Scope → St → Outcome × St
  | 0, _, _, st => (.timeout, st)
  | n + 1, t, scope, st =>
    match t with
    | .int i _ => (.ok (.int i), st)
    | .str s _ => (.ok (.str s), st)
    | .bool b _ => (.ok (.bool b), st)
    | .print v _ =>
      andThen (eval n v scope st) fun val st1 =>
        (.ok val, { st1 with output := st1.output ++ val.display ++ "\n" })
    | .tuple f s _ =>
      andThen (eval n f scope st) fun fv st1 =>
        andThen (eval n s scope st1) fun sv st2 =>
          (.ok (.tuple fv sv), st2)
    | .first v loc =>
      andThen (eval n v scope st) fun val st1 =>
        match val with
        | .tuple a _ => (.ok a, st1)
        | _ => (.err (RuntimeError.new ("não é uma tupla") loc), st1)
    | .second v loc =>
      andThen (eval n v scope st) fun val st1 =>
        match val with
        | .tuple _ b => (.ok b, st1)
        | _ => (.err (RuntimeError.new ("não é uma tupla") loc), st1)
    | .binary op lhs rhs loc =>
      andThen (eval n lhs scope st) fun l st1 =>
        andThen (eval n rhs scope st1) fun r st2 =>
          (applyBinOp op l r loc, st2)
    | .ifE c tb eb _ =>
      let loc := c.location
      andThen (eval n c scope st) fun cv st1 =>
        match cv with
        | .bool true => eval n tb scope st1
        | .bool false => eval n eb scope st1
        | _ => (.err (RuntimeError.new ("condição inválida") loc), st1)
    | .letE name v next _ =>
      andThen (eval n v scope st) fun val st1 =>
        eval n next scope { st1 with store := scope.set name.text val st1.store }
    | .var v =>
      match Scope.get scope v.text st.store with
      | (some val, store1) =>
        let (val', store2) := val.clone store1
        (.ok val', { st with store := store2 })
      | (none, store1) => (.err (RuntimeError.unknow_identifier v), { st with store := store1 })
    | .function ps body loc =>
      let (env, store1) := scope.clone st.store
      (.ok (.closure ⟨ps, body, loc⟩ env), { st with store := store1 })
    | .call callee args loc =>
      andThen (eval n callee scope st) fun cv st1 =>
        match cv with
        | .closure fn env =>
          if args.length ≠ fn.parameters.length then
            (.err (RuntimeError.invalid_number_of_arguments fn loc), st1)
          else
            match bindLoop (fun a stx => eval n a scope stx) env (fn.parameters.zip args) st1 with
            | (none, st2) => eval n fn.value env st2
            | (some o, st2) => (o, st2)
        | _ => (.err (RuntimeError.new ("não é uma função") loc), st1)

/-- The scope `main` starts from: `Scope::default()` — one empty
current frame, no parent. -/
def rootScope : Scope := ⟨0, []⟩

/-- The store backing `rootScope`: its single empty frame cell. -/
def store0 : Store := ⟨[[]]⟩

/-- Fresh initial world: root store, nothing printed yet. -/
def st0 : St := ⟨store0, ""⟩

/-- A throwaway source span for concrete test programs. -/
def loc0 : Location := ⟨0, 0⟩

/-! ### Unfolding lemmas for `eval` and `andThen` -/

theorem andThen_ok (v : Val) (st : St) (f : Val → St → Outcome × St) :
    andThen (.ok v, st) f = f v st := rfl

theorem andThen_err (e : RuntimeError) (st : St) (f : Val → St → Outcome × St) :
    andThen (.err e, st) f = (.err e, st) := rfl

theorem eval_int (n : Nat) (i : Int) (l : Location) (s : Scope) (st : St) :
    eval (n + 1) (.int i l) s st = (.ok (.int i), st) := rfl

theorem eval_str (n : Nat) (v : String) (l : Location) (s : Scope) (st : St) :
    eval (n + 1) (.str v l) s st = (.ok (.str v), st) := rfl

theorem eval_bool (n : Nat) (b : Bool) (l : Location) (s : Scope) (st : St) :
    eval (n + 1) (.bool b l) s st = (.ok (.bool b), st) := rfl

theorem eval_print (n : Nat) (v : Term) (l : Location) (s : Scope) (st : St) :
    eval (n + 1) (.print v l) s st =
      andThen (eval n v s st) (fun val st1 =>
        (.ok val, { st1 with output := st1.output ++ val.display ++ "\n" })) := rfl

theorem eval_binary (n : Nat) (op : BinaryOp) (lhs rhs : Term) (loc : Location)
    (s : Scope) (st : St) :
    eval (n + 1) (.binary op lhs rhs loc) s st =
      andThen (eval n lhs s st) (fun l st1 =>
        andThen (eval n rhs s st1) (fun r st2 =>
          (applyBinOp op l r loc, st2))) := rfl

theorem eval_first (n : Nat) (v : Term) (loc : Location) (s : Scope) (st : St) :
    eval (n + 1) (.first v loc) s st =
      andThen (eval n v s st) (fun val st1 =>
        match val with
        | .tuple a _ => (.ok a, st1)
        | _ => (.err (RuntimeError.new ("não é uma tupla") loc), st1)) := rfl

theorem eval_second (n : Nat) (v : Term) (loc : Location) (s : Scope) (st : St) :
    eval (n + 1) (.second v loc) s st =
      andThen (eval n v s st) (fun val st1 =>
        match val with
        | .tuple _ b => (.ok b, st1)
        | _ => (.err (RuntimeError.new ("não é uma tupla") loc), st1)) := rfl

theorem eval_var (n : Nat) (v : Var) (s : Scope) (st : St) :
    eval (n + 1) (.var v) s st =
      match Scope.get s v.text st.store with
      | (some val, store1) =>
        let (val', store2) := val.clone store1
        (.ok val', { st with store := store2 })
      | (none, store1) => (.err (RuntimeError.unknow_identifier v), { st with store := store1 }) := rfl

theorem eval_call (n : Nat) (callee : Term) (args : List Term) (loc : Location)
    (s : Scope) (st : St) :
    eval (n + 1) (.call callee args loc) s st =
      andThen (eval n callee s st) (fun cv st1 =>
        match cv with
        | .closure fn env =>
          if args.length ≠ fn.parameters.length then
            (.err (RuntimeError.invalid_number_of_arguments fn loc), st1)
          else
            match bindLoop (fun a stx => eval n a s stx) env (fn.parameters.zip args) st1 with
            | (none, st2) => eval n fn.value env st2
            | (some o, st2) => (o, st2)
        | _ => (.err (RuntimeError.new ("não é uma função") loc), st1)) := rfl

/-! ### Claim theorems -/

/-- C4 (counterexample): The claim says a successful `print` writes the
Display form with *no trailing newline*. The evaluator's print arm uses a
line-printing write: `print(1)` emits `"1\n"`, not the bare Display form
`"1"`. -/
theorem C4_counterexample :
    eval 2 (.print (.int 1 loc0) loc0) rootScope st0 = (.ok (.int 1), ⟨store0, "1\n"⟩)
    ∧ (Val.int 1).display = "1"
    ∧ ("1\n" : String) ≠ "1" := by
  refine ⟨rfl, rfl, by decide⟩

/-- C4 (amended): A successful `print` evaluates its operand, appends the
operand's Display form *followed by a newline* to the output, and returns the
operand's value; whole-program output is thus the concatenation of the
newline-terminated Display forms in evaluation order. -/
theorem C4_print_appends_display_newline (n : Nat) (t : Term) (l : Location) (s : Scope)
    (st st1 : St) (v : Val)
    (h : eval n t s st = (.ok v, st1)) :
    eval (n + 1) (.print t l) s st =
      (.ok v, { st1 with output := st1.output ++ v.display ++ "\n" }) := by
  rw [eval_print, h, andThen_ok]

/-- C4 (witness): `print(print(1))` prints `1` twice, on separate lines,
and the whole expression evaluates to `Int 1`. -/
theorem C4_print_appends_display_newline_witness :
    eval 3 (.print (.print (.int 1 loc0) loc0) loc0) rootScope st0
      = (.ok (.int 1), ⟨store0, "1\n1\n"⟩) := by
  have h1 : eval 2 (.print (.int 1 loc0) loc0) rootScope st0 = (.ok (.int 1), ⟨store0, "1\n"⟩) :=
    C4_print_appends_display_newline 1 (.int 1 loc0) loc0 rootScope st0 st0 (.int 1) rfl
  have h2 := C4_print_appends_display_newline 2 (.print (.int 1 loc0) loc0) loc0 rootScope st0
    ⟨store0, "1\n"⟩ (.int 1) h1
  exact h2

/-- C5: A binary `rem` whose operands evaluate to `Int a` and `Int 0` does
not produce a `DivisionByZero` (nor any other `RuntimeError`): no zero-divisor
guard precedes the remainder, so the host `%` is invoked with divisor zero and
its arithmetic-error branch is taken. -/
theorem C5_rem_zero_host_panics (n : Nat) (lhs rhs : Term) (loc : Location) (s : Scope)
    (st st1 st2 : St) (a : Int)
    (h1 : eval n lhs s st = (.ok (.int a), st1))
    (h2 : eval n rhs s st1 = (.ok (.int 0), st2)) :
    eval (n + 1) (.binary .rem lhs rhs loc) s st = (.hostPanic, st2)
    ∧ ∀ (e : RuntimeError) (st' : St),
        eval (n + 1) (.binary .rem lhs rhs loc) s st ≠ (.err e, st') := by
  have hmain : eval (n + 1) (.binary .rem lhs rhs loc) s st = (.hostPanic, st2) := by
    rw [eval_binary, h1, andThen_ok, h2, andThen_ok]
    simp [applyBinOp, i32rem]
  refine ⟨hmain, fun e st' heq => ?_⟩
  rw [hmain] at heq
  exact Outcome.noConfusion (congrArg Prod.fst heq)

/-- C5 (witness): `5 % 0` reaches the host remainder's arithmetic-error
branch. -/
theorem C5_rem_zero_host_panics_witness :
    eval 2 (.binary .rem (.int 5 loc0) (.int 0 loc0) loc0) rootScope st0 = (.hostPanic, st0) :=
  (C5_rem_zero_host_panics 1 (.int 5 loc0) (.int 0 loc0) loc0 rootScope st0 st0 st0 5
    rfl rfl).1

/-- C6: A call whose callee evaluates to a closure of different arity fails
with `InvalidNumberOfArguments` carrying the function literal and the call
site; the state is exactly the one after callee evaluation, so no argument is
evaluated and no parameter is bound (the arity check precedes the binding
loop). -/
theorem C6_arity_mismatch (n : Nat) (callee : Term) (args : List Term) (loc : Location)
    (s : Scope) (st st1 : St) (fn : Function) (env : Scope)
    (h1 : eval n callee s st = (.ok (.closure fn env), st1))
    (h2 : args.length ≠ fn.parameters.length) :
    eval (n + 1) (.call callee args loc) s st
      = (.err (RuntimeError.invalid_number_of_arguments fn loc), st1)
    ∧ (RuntimeError.invalid_number_of_arguments fn loc).kind
      = .invalidNumberOfArguments fn loc := by
  constructor
  · rw [eval_call, h1, andThen_ok]
    simp only [if_pos h2]
  · rfl

/-- C6 (witness): Calling a zero-parameter function literal with one
argument fails with `InvalidNumberOfArguments` and leaves the world exactly as
it was after evaluating the callee (the argument `2` is never evaluated, the
closure's fresh frame stays empty). -/
theorem C6_arity_mismatch_witness :
    eval 2 (.call (.function [] (.int 1 loc0) loc0) [.int 2 loc0] loc0) rootScope st0
      = (.err (RuntimeError.invalid_number_of_arguments ⟨[], .int 1 loc0, loc0⟩ loc0),
         ⟨⟨[[], []]⟩, ""⟩) :=
  (C6_arity_mismatch 1 (.function [] (.int 1 loc0) loc0) [.int 2 loc0] loc0 rootScope st0
    ⟨⟨[[], []]⟩, ""⟩ ⟨[], .int 1 loc0, loc0⟩ ⟨1, [0]⟩ rfl (by decide)).1

/-- C9: For all i32 values `a`, `b`, `add` evaluates to `Int (a + b)` and
`sub` to `Int (a - b)`, where `+`/`-` are i32 (two's-complement wrapping)
addition and subtraction; on pairs whose mathematical sum or difference is
representable the wrap is the identity. -/
theorem C9_add_sub_int (a b : Int) (la lb loc : Location) (n : Nat) (s : Scope) (st : St)
    (ha1 : -2147483648 ≤ a) (ha2 : a < 2147483648)
    (hb1 : -2147483648 ≤ b) (hb2 : b < 2147483648) :
    eval (n + 2) (.binary .add (.int a la) (.int b lb) loc) s st
      = (.ok (.int (i32wrap (a + b))), st)
    ∧ eval (n + 2) (.binary .sub (.int a la) (.int b lb) loc) s st
      = (.ok (.int (i32wrap (a - b))), st)
    ∧ (-2147483648 ≤ a + b → a + b < 2147483648 → i32wrap (a + b) = a + b)
    ∧ (-2147483648 ≤ a - b → a - b < 2147483648 → i32wrap (a - b) = a - b) := by
  refine ⟨?_, ?_, ?_, ?_⟩
  · rw [eval_binary, eval_int, andThen_ok, eval_int, andThen_ok]
    simp [applyBinOp, i32add]
  · rw [eval_binary, eval_int, andThen_ok, eval_int, andThen_ok]
    simp [applyBinOp, i32sub]
  · intro h1 h2; unfold i32wrap; omega
  · intro h1 h2; unfold i32wrap; omega

/-- C9 (witness): In-range: `2 + 3 = 5`; at the representation boundary the
i32 equations still hold: `2147483647 + 1 = -2147483648` and
`-2147483648 - 1 = 2147483647`. -/
theorem C9_add_sub_int_witness :
    eval 2 (.binary .add (.int 2 loc0) (.int 3 loc0) loc0) rootScope st0
      = (.ok (.int 5), st0)
    ∧ eval 2 (.binary .add (.int 2147483647 loc0) (.int 1 loc0) loc0) rootScope st0
      = (.ok (.int (-2147483648)), st0)
    ∧ eval 2 (.binary .sub (.int (-2147483648) loc0) (.int 1 loc0) loc0) rootScope st0
      = (.ok (.int 2147483647), st0) := by
  have h1 := C9_add_sub_int 2 3 loc0 loc0 loc0 0 rootScope st0
    (by decide) (by decide) (by decide) (by decide)
  have h2 := C9_add_sub_int 2147483647 1 loc0 loc0 loc0 0 rootScope st0
    (by decide) (by decide) (by decide) (by decide)
  have h3 := C9_add_sub_int (-2147483648) 1 loc0 loc0 loc0 0 rootScope st0
    (by decide) (by decide) (by decide) (by decide)
  refine ⟨h1.1.trans ?_, h2.1.trans ?_, h3.2.1.trans ?_⟩
  · rw [show i32wrap (2 + 3) = 5 from by decide]
  · rw [show i32wrap (2147483647 + 1) = -2147483648 from by decide]
  · rw [show i32wrap (-2147483648 - 1) = 2147483647 from by decide]

/-- C1 (counterexample): The claim says a `div` whose right operand is
`Int 0` fails with `DivisionByZero` *regardless of the left operand*. With a
`Bool` left operand and `Int 0` right operand the zero pattern
`(Val::Int(_), Val::Int(0))` does not match, and the catch-all yields
`InvalidBinaryOperation` instead. -/
theorem C1_counterexample :
    eval 2 (.binary .div (.bool true ⟨0, 1⟩) (.int 0 ⟨2, 3⟩) ⟨0, 3⟩) rootScope st0
      = (.err (RuntimeError.invalid_binary_operation ⟨0, 3⟩), st0)
    ∧ (RuntimeError.invalid_binary_operation ⟨0, 3⟩).kind ≠ ErrorKind.divisionByZero := by
  refine ⟨rfl, fun h => ErrorKind.noConfusion h⟩

/-- C1 (amended): `div` with both operands `Int` and the right `Int 0`
fails with `DivisionByZero` (the zero pattern is checked before the general
mismatch case); with a non-`Int` left operand the failure is
`InvalidBinaryOperation` even when the right operand is `Int 0`; with both
`Int` and the right nonzero the result is the truncating quotient, except the
host-panicking overflow pair `(i32::MIN, -1)`. -/
theorem C1_div_semantics (n : Nat) (lhs rhs : Term) (loc : Location) (s : Scope)
    (st st1 st2 : St) :
    (∀ a : Int, eval n lhs s st = (.ok (.int a), st1) →
      eval n rhs s st1 = (.ok (.int 0), st2) →
      eval (n + 1) (.binary .div lhs rhs loc) s st
        = (.err (RuntimeError.division_by_zero loc), st2))
    ∧ (∀ (v : Val) (b : Int), eval n lhs s st = (.ok v, st1) →
      (∀ a : Int, v ≠ .int a) →
      eval n rhs s st1 = (.ok (.int b), st2) →
      eval (n + 1) (.binary .div lhs rhs loc) s st
        = (.err (RuntimeError.invalid_binary_operation loc), st2))
    ∧ (∀ a b : Int, eval n lhs s st = (.ok (.int a), st1) →
      eval n rhs s st1 = (.ok (.int b), st2) →
      b ≠ 0 → ¬(a = i32min ∧ b = -1) →
      eval (n + 1) (.binary .div lhs rhs loc) s st = (.ok (.int (a.tdiv b)), st2)) := by
  refine ⟨fun a h1 h2 => ?_, fun v b h1 hni h2 => ?_, fun a b h1 h2 hb0 hovf => ?_⟩
  · rw [eval_binary, h1, andThen_ok, h2, andThen_ok]
    simp [applyBinOp]
  · rw [eval_binary, h1, andThen_ok, h2, andThen_ok]
    cases v with
    | int a => exact absurd rfl (hni a)
    | bool _ => rfl
    | str _ => rfl
    | tuple _ _ => rfl
    | closure _ _ => rfl
  · rw [eval_binary, h1, andThen_ok, h2, andThen_ok]
    simp only [applyBinOp]
    rw [if_neg hb0]
    unfold i32div
    rw [if_neg (by rintro (h | h); exact hb0 h; exact hovf h)]

/-- C1 (witness): `1 / 0` is `DivisionByZero`; `-7 / 2` truncates toward
zero to `-3`. -/
theorem C1_div_semantics_witness :
    eval 2 (.binary .div (.int 1 loc0) (.int 0 loc0) loc0) rootScope st0
      = (.err (RuntimeError.division_by_zero loc0), st0)
    ∧ eval 2 (.binary .div (.int (-7) loc0) (.int 2 loc0) loc0) rootScope st0
      = (.ok (.int (-3)), st0) := by
  have h := C1_div_semantics 1 (.int 1 loc0) (.int 0 loc0) loc0 rootScope st0 st0 st0
  have h2 := C1_div_semantics 1 (.int (-7) loc0) (.int 2 loc0) loc0 rootScope st0 st0 st0
  refine ⟨h.1 1 rfl rfl, (h2.2.2 (-7) 2 rfl rfl (by decide) (by decide)).trans ?_⟩
  rw [show ((-7 : Int).tdiv 2) = -3 from by decide]

/-- C3 (counterexample): The claim says the diagnostic for projecting a
non-tuple points at the *operand's* span. The evaluator builds the error from
the projection node's own location: with operand span `(5,6)` and projection
span `(0,8)`, the labeled location is `(0,8)`. -/
theorem C3_counterexample :
    eval 2 (.first (.int 1 ⟨5, 6⟩) ⟨0, 8⟩) rootScope st0
      = (.err (RuntimeError.new ("não é uma tupla") ⟨0, 8⟩), st0)
    ∧ (RuntimeError.new ("não é uma tupla") ⟨0, 8⟩).labels = [⟨0, 8, "não é uma tupla"⟩]
    ∧ (Term.int 1 ⟨5, 6⟩).location = ⟨5, 6⟩
    ∧ (⟨0, 8⟩ : Location) ≠ ⟨5, 6⟩ := by
  refine ⟨rfl, rfl, rfl, by decide⟩

/-- C3 (amended): `first`/`second` on an operand that evaluates to a
non-tuple fail with an ArgumentError-class diagnostic ("não é uma tupla")
whose labeled location is the projection expression's *own* span; on a tuple
operand they return the respective component. -/
theorem C3_projection_semantics (n : Nat) (inner : Term) (loc : Location) (s : Scope)
    (st st1 : St) :
    (∀ v : Val, eval n inner s st = (.ok v, st1) → (∀ a b, v ≠ .tuple a b) →
      eval (n + 1) (.first inner loc) s st
        = (.err (RuntimeError.new ("não é uma tupla") loc), st1)
      ∧ eval (n + 1) (.second inner loc) s st
        = (.err (RuntimeError.new ("não é uma tupla") loc), st1)
      ∧ (RuntimeError.new ("não é uma tupla") loc).kind = .argumentError
      ∧ (RuntimeError.new ("não é uma tupla") loc).labels
        = [⟨loc.start, loc.stop, "não é uma tupla"⟩])
    ∧ (∀ a b : Val, eval n inner s st = (.ok (.tuple a b), st1) →
      eval (n + 1) (.first inner loc) s st = (.ok a, st1)
      ∧ eval (n + 1) (.second inner loc) s st = (.ok b, st1)) := by
  constructor
  · intro v h hnt
    refine ⟨?_, ?_, rfl, rfl⟩
    · rw [eval_first, h, andThen_ok]
      cases v with
      | tuple a b => exact absurd rfl (hnt a b)
      | int _ => rfl
      | bool _ => rfl
      | str _ => rfl
      | closure _ _ => rfl
    · rw [eval_second, h, andThen_ok]
      cases v with
      | tuple a b => exact absurd rfl (hnt a b)
      | int _ => rfl
      | bool _ => rfl
      | str _ => rfl
      | closure _ _ => rfl
  · intro a b h
    exact ⟨by rw [eval_first, h, andThen_ok], by rw [eval_second, h, andThen_ok]⟩

/-- C3 (witness): `first(1)` fails with the argument error at the
projection's span; `first((1, 2))` and `second((1, 2))` project. -/
theorem C3_projection_semantics_witness :
    eval 2 (.first (.int 1 ⟨5, 6⟩) ⟨0, 8⟩) rootScope st0
      = (.err (RuntimeError.new ("não é uma tupla") ⟨0, 8⟩), st0)
    ∧ eval 3 (.first (.tuple (.int 1 loc0) (.int 2 loc0) loc0) loc0) rootScope st0
      = (.ok (.int 1), st0)
    ∧ eval 3 (.second (.tuple (.int 1 loc0) (.int 2 loc0) loc0) loc0) rootScope st0
      = (.ok (.int 2), st0) := by
  have h1 := C3_projection_semantics 1 (.int 1 ⟨5, 6⟩) ⟨0, 8⟩ rootScope st0 st0
  have h2 := C3_projection_semantics 2 (.tuple (.int 1 loc0) (.int 2 loc0) loc0) loc0
    rootScope st0 st0
  exact ⟨(h1.1 (.int 1) rfl (fun a b hh => Val.noConfusion hh)).1,
    (h2.2 (.int 1) (.int 2) rfl).1, (h2.2 (.int 1) (.int 2) rfl).2⟩

/-- C7: `add` on two `Int` operands is i32 addition; on every other
pairing of operand variants it never fails and yields the `Str` concatenation
of the two operands' Display forms. -/
theorem C7_add_concat (n : Nat) (lhs rhs : Term) (loc : Location) (s : Scope)
    (st st1 st2 : St) (v1 v2 : Val)
    (h1 : eval n lhs s st = (.ok v1, st1))
    (h2 : eval n rhs s st1 = (.ok v2, st2)) :
    (∀ a b : Int, v1 = .int a → v2 = .int b →
      eval (n + 1) (.binary .add lhs rhs loc) s st = (.ok (.int (i32add a b)), st2))
    ∧ ((∀ a b : Int, ¬(v1 = .int a ∧ v2 = .int b)) →
      eval (n + 1) (.binary .add lhs rhs loc) s st
        = (.ok (.str (v1.display ++ v2.display)), st2)) := by
  constructor
  · intro a b hv1 hv2
    subst hv1; subst hv2
    rw [eval_binary, h1, andThen_ok, h2, andThen_ok]
    rfl
  · intro hno
    rw [eval_binary, h1, andThen_ok, h2, andThen_ok]
    cases v1 <;> cases v2 <;> first
      | exact absurd ⟨rfl, rfl⟩ (hno _ _)
      | rfl

/-- C7 (witness): A closure plus a `Bool` concatenates their Display
forms (`"<#closure>true"`); two `Int`s still add. -/
theorem C7_add_concat_witness :
    eval 2 (.binary .add (.function [] (.int 1 loc0) loc0) (.bool true loc0) loc0)
        rootScope st0
      = (.ok (.str ("<#closure>true")), ⟨⟨[[], []]⟩, ""⟩)
    ∧ eval 2 (.binary .add (.int 2 loc0) (.int 3 loc0) loc0) rootScope st0
      = (.ok (.int 5), st0) := by
  have h1 := C7_add_concat 1 (.function [] (.int 1 loc0) loc0) (.bool true loc0) loc0
    rootScope st0 ⟨⟨[[], []]⟩, ""⟩ ⟨⟨[[], []]⟩, ""⟩
    (.closure ⟨[], .int 1 loc0, loc0⟩ ⟨1, [0]⟩) (.bool true) rfl rfl
  have h2 := C7_add_concat 1 (.int 2 loc0) (.int 3 loc0) loc0 rootScope st0 st0 st0
    (.int 2) (.int 3) rfl rfl
  refine ⟨(h1.2 (fun a b hab => Val.noConfusion hab.1)).trans rfl,
    (h2.1 2 3 rfl rfl).trans ?_⟩
  rw [show i32add 2 3 = 5 from by decide]

/-- Recognizer for `Val::Bool` (used to state the `and`/`or` typing condition). -/
def Val.isBool : Val → Bool
  | .bool _ => true
  | _ => false

/-- C8: `and`/`or` evaluate both operands unconditionally left-to-right:
a failure of the right operand propagates (and its state, including print
output, is kept) whatever the left value was; with two `Bool`s the result is
the conjunction/disjunction; with any non-`Bool` operand the failure is
`InvalidBinaryOperation`. -/
theorem C8_and_or_strict (n : Nat) (lhs rhs : Term) (loc : Location) (s : Scope)
    (st st1 : St) (l : Val)
    (h1 : eval n lhs s st = (.ok l, st1)) :
    (∀ (e : RuntimeError) (st2 : St), eval n rhs s st1 = (.err e, st2) →
      eval (n + 1) (.binary .and lhs rhs loc) s st = (.err e, st2)
      ∧ eval (n + 1) (.binary .or lhs rhs loc) s st = (.err e, st2))
    ∧ (∀ (a b : Bool) (st2 : St), l = .bool a →
      eval n rhs s st1 = (.ok (.bool b), st2) →
      eval (n + 1) (.binary .and lhs rhs loc) s st = (.ok (.bool (a && b)), st2)
      ∧ eval (n + 1) (.binary .or lhs rhs loc) s st = (.ok (.bool (a || b)), st2))
    ∧ (∀ (r : Val) (st2 : St), eval n rhs s st1 = (.ok r, st2) →
      (l.isBool = false ∨ r.isBool = false) →
      eval (n + 1) (.binary .and lhs rhs loc) s st
        = (.err (RuntimeError.invalid_binary_operation loc), st2)
      ∧ eval (n + 1) (.binary .or lhs rhs loc) s st
        = (.err (RuntimeError.invalid_binary_operation loc), st2)) := by
  refine ⟨fun e st2 h2 => ?_, fun a b st2 hl h2 => ?_, fun r st2 h2 hnb => ?_⟩
  · constructor <;> rw [eval_binary, h1, andThen_ok, h2, andThen_err]
  · subst hl
    constructor <;> rw [eval_binary, h1, andThen_ok, h2, andThen_ok] <;> rfl
  · constructor <;> rw [eval_binary, h1, andThen_ok, h2, andThen_ok] <;>
      cases l <;> cases r <;> simp_all [Val.isBool] <;> rfl

/-- C8 (witness): `false && print(true)` still evaluates the right
operand: the output contains `"true\n"` although the left operand alone
decides the result `false`; dually `false || print(true)` is `true` with the
same output. -/
theorem C8_and_or_strict_witness :
    eval 3 (.binary .and (.bool false loc0) (.print (.bool true loc0) loc0) loc0)
        rootScope st0
      = (.ok (.bool false), ⟨store0, "true\n"⟩)
    ∧ eval 3 (.binary .or (.bool false loc0) (.print (.bool true loc0) loc0) loc0)
        rootScope st0
      = (.ok (.bool true), ⟨store0, "true\n"⟩) := by
  have h := C8_and_or_strict 2 (.bool false loc0) (.print (.bool true loc0) loc0) loc0
    rootScope st0 st0 (.bool false) rfl
  have hp : eval 2 (.print (.bool true loc0) loc0) rootScope st0
      = (.ok (.bool true), ⟨store0, "true\n"⟩) := rfl
  exact ⟨(h.2.1 false true ⟨store0, "true\n"⟩ rfl hp).1,
    (h.2.1 false true ⟨store0, "true\n"⟩ rfl hp).2⟩

/-- The body of the spec's recursive test function:
`if (n < 2) { n } else { f(n - 1) + f(n - 2) }`. -/
def fibBody : Term :=
  .ifE (.binary .lt (.var ⟨"n", loc0⟩) (.int 2 loc0) loc0)
    (.var ⟨"n", loc0⟩)
    (.binary .add
      (.call (.var ⟨"f", loc0⟩) [.binary .sub (.var ⟨"n", loc0⟩) (.int 1 loc0) loc0] loc0)
      (.call (.var ⟨"f", loc0⟩) [.binary .sub (.var ⟨"n", loc0⟩) (.int 2 loc0) loc0] loc0)
      loc0)
    loc0

/-- The spec's recursion test program:
`let f = fn (n) => if (n < 2) { n } else { f(n - 1) + f(n - 2) }; f(10)`. -/
def fibProg : Term :=
  .letE ⟨"f", loc0⟩ (.function [⟨"n", loc0⟩] fibBody loc0)
    (.call (.var ⟨"f", loc0⟩) [.int 10 loc0] loc0)
    loc0

set_option maxRecDepth 1000000 in
set_option maxHeartbeats 4000000 in
/-- C2: In a fresh empty environment the recursive program
`let f = fn (n) => if (n < 2) { n } else { f(n - 1) + f(n - 2) }; f(10)`
evaluates to `Int 55`: the `let` binding of `f`, installed after the closure
captured its defining frame, is visible inside the closure's body through the
shared frame cell, so the self-calls resolve. -/
theorem C2_recursion_fib10 :
    (eval 200 fibProg rootScope st0).1 = .ok (.int 55) := rfl

/-! ### Store and binding-loop lemmas (for the call/frame claims) -/

theorem Store.read_write_ne (st : Store) (c c' : Nat) (f : Frame) (h : c ≠ c') :
    (st.write c f).read c' = st.read c' := by
  simp [Store.read, Store.write, List.getD_eq_getElem?_getD, List.getElem?_set_ne h]

theorem Store.read_append_left (cells ext : List Frame) (c : Nat) (h : c < cells.length) :
    (⟨cells ++ ext⟩ : Store).read c = (⟨cells⟩ : Store).read c := by
  simp [Store.read, List.getD_eq_getElem?_getD, List.getElem?_append_left h]

/-- The binding a chain lookup would find, without the cloning side effect of
`Scope::get` (an observer on the store, used to phrase hypotheses about what a
variable is bound to). -/
def rawGet (st : Store) : List Nat → String → Option Val
  | [], _ => none
  | c :: rest, key =>
    match Frame.find (st.read c) key with
    | some v => some v
    | none => rawGet st rest key

theorem getFrom_eq_of_rawGet (st : Store) (chain : List Nat) (key : String) (v : Val)
    (h : rawGet st chain key = some v) :
    Scope.getFrom st chain key = (some (v.clone st).1, (v.clone st).2) := by
  induction chain with
  | nil => simp [rawGet] at h
  | cons c rest ih =>
    unfold rawGet at h
    unfold Scope.getFrom
    cases hf : Frame.find (st.read c) key with
    | some w =>
      rw [hf] at h
      cases h
      simp
    | none =>
      rw [hf] at h
      exact ih h

/-- The cumulative effect of the `env.set` writes of the binding loop. -/
def bindAll (env : Scope) : List (String × Val) → Store → Store
  | [], s => s
  | (k, v) :: rest, s => bindAll env rest (env.set k v s)

theorem bindAll_read_ne (env : Scope) (kvs : List (String × Val)) (s : Store) (c : Nat)
    (h : c ≠ env.current) :
    (bindAll env kvs s).read c = s.read c := by
  induction kvs generalizing s with
  | nil => rfl
  | cons kv rest ih =>
    obtain ⟨k, v⟩ := kv
    unfold bindAll
    rw [ih]
    exact Store.read_write_ne _ _ _ _ (fun hh => h hh.symm)

/-- When every argument evaluates purely (same state back, a fixed value), the
binding loop succeeds and its whole effect on the world is the sequence of
`env.set` writes of the parameter/value pairs. -/
theorem bindLoop_pure (evalF : Term → St → Outcome × St) (env : Scope) :
    ∀ (params : List Parameter) (args : List Term) (vals : List Val) (st : St),
      List.Forall₂ (fun a v => ∀ st' : St, evalF a st' = (.ok v, st')) args vals →
      bindLoop evalF env (params.zip args) st
        = (none, { st with store := bindAll env ((params.map Parameter.text).zip vals) st.store }) := by
  intro params
  induction params with
  | nil => intro args vals st h; rfl
  | cons p ps ih =>
    intro args vals st h
    cases h with
    | nil => rfl
    | cons hR hrest =>
      rename_i a v as vs
      show bindLoop evalF env ((p, a) :: ps.zip as) st = _
      unfold bindLoop
      rw [hR st]
      change bindLoop evalF env (ps.zip as) { store := env.set p.text v st.store, output := st.output } = _
      rw [ih as vs _ hrest]
      rfl

/-- Evaluating a variable bound (anywhere in the chain) to a closure: the
`Scope::get` lookup returns the closure `.cloned()` (fresh empty current
frame atop the captured chain), and the `Var` arm's `val.clone()` clones once
more, so the produced closure's scope has two fresh empty frames atop the
captured chain and the store grows by those two cells. -/
theorem eval_var_closure (n : Nat) (x : Var) (s : Scope) (st : St) (fn : Function) (env : Scope)
    (hfound : rawGet st.store (s.current :: s.parents) x.text = some (.closure fn env)) :
    eval (n + 1) (.var x) s st
      = (.ok (.closure fn ⟨st.store.cells.length + 1,
            st.store.cells.length :: env.current :: env.parents⟩),
         { st with store := ⟨st.store.cells ++ [[], []]⟩ }) := by
  have hget : Scope.get s x.text st.store
      = (some ((Val.closure fn env).clone st.store).1, ((Val.closure fn env).clone st.store).2) :=
    getFrom_eq_of_rawGet st.store (s.current :: s.parents) x.text _ hfound
  rw [eval_var, hget]
  simp only [Val.clone, Scope.clone, Store.alloc, List.length_append, List.append_assoc]
  rfl

/-- The identity function literal `fn (x) => x` (as captured in a closure). -/
def idFn : Function := ⟨[⟨"x", loc0⟩], .var ⟨"x", loc0⟩, loc0⟩

/-- C10 (counterexample): The claim says the call's parameter bindings are
written into the fresh frame of the clone returned by the environment lookup.
In the world after `let id = fn (x) => x` (closure captured at cell 1, `id`
bound in cell 0), the lookup of `id` returns a clone whose current frame is
fresh cell 2 — but after evaluating `id(7)` cell 2 is still empty: the `Var`
arm cloned once more and the binding `x ↦ 7` went to cell 3. -/
theorem C10_counterexample :
    Scope.get rootScope ("id") ⟨[[("id", .closure idFn ⟨1, [0]⟩)], []]⟩
      = (some (.closure idFn ⟨2, [1, 0]⟩), ⟨[[("id", .closure idFn ⟨1, [0]⟩)], [], []]⟩)
    ∧ eval 4 (.call (.var ⟨"id", loc0⟩) [.int 7 loc0] loc0) rootScope
        ⟨⟨[[("id", .closure idFn ⟨1, [0]⟩)], []]⟩, ""⟩
      = (.ok (.int 7), ⟨⟨[[("id", .closure idFn ⟨1, [0]⟩)], [], [], [("x", .int 7)]]⟩, ""⟩)
    ∧ (⟨[[("id", .closure idFn ⟨1, [0]⟩)], [], [], [("x", .int 7)]]⟩ : Store).read 2 = []
    ∧ (⟨[[("id", .closure idFn ⟨1, [0]⟩)], [], [], [("x", .int 7)]]⟩ : Store).read 3
      = [("x", .int 7)]
    ∧ ([("x", Val.int 7)] : Frame) ≠ [] := by
  refine ⟨rfl, rfl, rfl, rfl, by simp⟩

/-- C10 (amended): For a call whose callee is a variable bound to a
closure: the lookup returns a clone of the closure with a fresh empty current
frame whose parent chain starts at the captured current frame, and the `Var`
arm clones once more, so the body runs in a scope whose current frame is the
second fresh cell and whose parents are the first fresh cell followed by the
captured chain. When the arguments evaluate purely, the parameter bindings
are written only into that second fresh frame: every other cell — in
particular every cell that existed before the call, including the closure's
captured backing storage — is unchanged; successive calls repeat this with
strictly newer cells, so they never observe each other's bindings. -/
theorem C10_call_fresh_frames (n : Nat) (x : Var) (args : List Term) (vals : List Val)
    (loc : Location) (s : Scope) (st : St) (fn : Function) (env : Scope)
    (hfound : rawGet st.store (s.current :: s.parents) x.text = some (.closure fn env))
    (hlen : args.length = fn.parameters.length)
    (hpure : List.Forall₂ (fun a v => ∀ st' : St, eval (n + 1) a s st' = (.ok v, st'))
      args vals) :
    eval (n + 2) (.call (.var x) args loc) s st
      = eval (n + 1) fn.value
          ⟨st.store.cells.length + 1, st.store.cells.length :: env.current :: env.parents⟩
          { st with store :=
              (bindAll
                ⟨st.store.cells.length + 1, st.store.cells.length :: env.current :: env.parents⟩
                ((fn.parameters.map Parameter.text).zip vals) ⟨st.store.cells ++ [[], []]⟩) }
    ∧ (⟨st.store.cells ++ [[], []]⟩ : Store).read st.store.cells.length = []
    ∧ (⟨st.store.cells ++ [[], []]⟩ : Store).read (st.store.cells.length + 1) = []
    ∧ (∀ c, c ≠ st.store.cells.length + 1 →
        (bindAll
            ⟨st.store.cells.length + 1, st.store.cells.length :: env.current :: env.parents⟩
            ((fn.parameters.map Parameter.text).zip vals) ⟨st.store.cells ++ [[], []]⟩).read c
          = (⟨st.store.cells ++ [[], []]⟩ : Store).read c)
    ∧ (∀ c, c < st.store.cells.length →
        (bindAll
            ⟨st.store.cells.length + 1, st.store.cells.length :: env.current :: env.parents⟩
            ((fn.parameters.map Parameter.text).zip vals) ⟨st.store.cells ++ [[], []]⟩).read c
          = st.store.read c) := by
  refine ⟨?_, ?_, ?_, fun c hc => bindAll_read_ne _ _ _ _ hc, fun c hc => ?_⟩
  · have hvar := eval_var_closure n x s st fn env hfound
    rw [eval_call, hvar, andThen_ok]
    have hbind := bindLoop_pure (fun a stx => eval (n + 1) a s stx)
      ⟨st.store.cells.length + 1, st.store.cells.length :: env.current :: env.parents⟩
      fn.parameters args vals { st with store := ⟨st.store.cells ++ [[], []]⟩ } hpure
    show (if args.length ≠ fn.parameters.length then _ else _) = _
    rw [if_neg (fun hh => hh hlen), hbind]
  · show (st.store.cells ++ [[], []]).getD st.store.cells.length [] = []
    rw [List.getD_eq_getElem?_getD, List.getElem?_append_right (Nat.le_refl _)]
    simp
  · show (st.store.cells ++ [[], []]).getD (st.store.cells.length + 1) [] = []
    rw [List.getD_eq_getElem?_getD,
      List.getElem?_append_right (Nat.le_succ _)]
    simp
  · exact (bindAll_read_ne _ _ _ _ (by show c ≠ st.store.cells.length + 1; omega)).trans
      (Store.read_append_left st.store.cells [[], []] c hc)

/-- C10 (witness): Calling `id(7)` through the variable: the call equation
of the amended claim instantiates to the concrete run, the body executes in
the scope `⟨3, [2, 1, 0]⟩`, the binding lands in fresh cell 3 only, and the
pre-call cells 0 and 1 (the captured storage) are unchanged. -/
theorem C10_call_fresh_frames_witness :
    eval 4 (.call (.var ⟨"id", loc0⟩) [.int 7 loc0] loc0) rootScope
        ⟨⟨[[("id", .closure idFn ⟨1, [0]⟩)], []]⟩, ""⟩
      = (.ok (.int 7), ⟨⟨[[("id", .closure idFn ⟨1, [0]⟩)], [], [], [("x", .int 7)]]⟩, ""⟩)
    ∧ (bindAll ⟨3, [2, 1, 0]⟩ [("x", Val.int 7)]
        ⟨[[("id", .closure idFn ⟨1, [0]⟩)], [], [], []]⟩).read 1 = []
    ∧ (bindAll ⟨3, [2, 1, 0]⟩ [("x", Val.int 7)]
        ⟨[[("id", .closure idFn ⟨1, [0]⟩)], [], [], []]⟩).read 0
      = [("id", .closure idFn ⟨1, [0]⟩)] := by
  have h := C10_call_fresh_frames 2 ⟨"id", loc0⟩ [.int 7 loc0] [.int 7] loc0 rootScope
    ⟨⟨[[("id", .closure idFn ⟨1, [0]⟩)], []]⟩, ""⟩ idFn ⟨1, [0]⟩ rfl rfl
    (List.Forall₂.cons (fun st' => rfl) List.Forall₂.nil)
  exact ⟨h.1.trans rfl, h.2.2.2.1 1 (by decide), h.2.2.2.2 0 (by decide)⟩

end Rinha
